import Mathlib

/-
Verification of the distributed room-state engine of the
"hotaru-no-hikari button" voting service.

Shallow embedding of:
  - backend/state.go      : in-memory Room store (AddParticipant,
    RemoveParticipant, Vote, CheckTrigger, GetState)
  - backend/redis_store.go: shared Redis-backed store (AddParticipant,
    RemoveParticipant, Vote, CheckTriggerStatus), including the 24-hour
    sliding key expiry, and its in-memory fallback (MemRoom path of
    CheckTriggerStatus)
  - backend/auth.go       : the Zoom app-context credential decoder
    (framing validation of VerifyZoomContext and the uid/mid extraction)

Go maps `map[string]bool` that are only ever written with value `true`
are modelled as `Finset String`; `len` of such a map is `Finset.card`.
Machine integers are modelled as `Nat` (all quantities involved are
non-negative set cardinalities and byte counts, far below overflow).
`int(math.Ceil(float64(total) / 2.0))` equals `(total + 1) / 2` in `Nat`
for every map length representable exactly in float64, which is
`ceilHalf` below.
-/

/-- Threshold computation `int(math.Ceil(float64(total) / 2.0))` from
state.go line 89 and redis_store.go lines 148/177, as a `Nat`. -/
def ceilHalf (total : Nat) : Nat := (total + 1) / 2

/-- The pure trigger decision shared by both backends (spec section 4.1
"Trigger Engine"); it is the branching logic of state.go `CheckTrigger`
(lines 74-95) and redis_store.go `CheckTriggerStatus` (lines 134-186)
stripped of state: already triggered stays triggered; an empty room never
triggers; otherwise trigger iff votes >= ceil(total/2) and votes > 0. -/
def evaluate (total votes : Nat) (alreadyTriggered : Bool) : Bool :=
  if alreadyTriggered then true
  else if total = 0 then false
  else decide (ceilHalf total ≤ votes ∧ 0 < votes)

/-- In-memory room state, state.go lines 9-14 (struct `Room`:
`Participants map[string]bool`, `VotedUsers map[string]bool`,
`IsTriggered bool`).  The `MemRoom` struct of redis_store.go lines 21-26
has the same three components and identical operation semantics, so it is
embedded by this structure as well. -/
structure Room where
  Participants : Finset String
  VotedUsers : Finset String
  IsTriggered : Bool
deriving DecidableEq

/-- `NewRoom` from state.go lines 16-21: empty sets, flag unset (Go zero
value). -/
def NewRoom : Room := { Participants := ∅, VotedUsers := ∅, IsTriggered := false }

/-- state.go lines 46-50: `r.Participants[pid] = true`. -/
def Room.AddParticipant (r : Room) (pid : String) : Room :=
  { r with Participants := insert pid r.Participants }

/-- state.go lines 52-56: `delete(r.Participants, pid)`. -/
def Room.RemoveParticipant (r : Room) (pid : String) : Room :=
  { r with Participants := r.Participants.erase pid }

/-- state.go lines 58-72: `Vote` returns false when already triggered or
when `pid` already voted, otherwise records the vote and returns true.
The returned pair is (updated room, counted flag). -/
def Room.Vote (r : Room) (pid : String) : Room × Bool :=
  if r.IsTriggered then (r, false)
  else if pid ∈ r.VotedUsers then (r, false)
  else ({ r with VotedUsers := insert pid r.VotedUsers }, true)

/-- state.go lines 74-95: `CheckTrigger` reads the counts and, when the
threshold is met in a non-empty untriggered room, sets `IsTriggered` and
returns true. The returned pair is (updated room, triggered flag). -/
def Room.CheckTrigger (r : Room) : Room × Bool :=
  if r.IsTriggered then (r, true)
  else
    let total := r.Participants.card
    let votes := r.VotedUsers.card
    if total = 0 then (r, false)
    else if ceilHalf total ≤ votes ∧ 0 < votes then
      ({ r with IsTriggered := true }, true)
    else (r, false)

/-- state.go lines 97-101: `GetState` returns
(len(Participants), len(VotedUsers), IsTriggered). -/
def Room.GetState (r : Room) : Nat × Nat × Bool :=
  (r.Participants.card, r.VotedUsers.card, r.IsTriggered)

/-- redis_store.go lines 135-154 (the `!useRedis` branch of
`CheckTriggerStatus`, operating on a `MemRoom`): read both cardinalities,
and when the room is untriggered, non-empty and the threshold is met, set
the triggered flag; return (room, total, votes, triggered). -/
def Room.CheckTriggerStatusMem (r : Room) : Room × Nat × Nat × Bool :=
  let total := r.Participants.card
  let votes := r.VotedUsers.card
  if r.IsTriggered then (r, total, votes, true)
  else if 0 < total ∧ ceilHalf total ≤ votes ∧ 0 < votes then
    ({ r with IsTriggered := true }, total, votes, true)
  else (r, total, votes, false)

/-- `roomTTL = 24 * time.Hour` from redis_store.go line 68, in seconds. -/
def roomTTL : Nat := 24 * 60 * 60

/-- The Redis-side per-room state touched by redis_store.go: the
participant set (`room:<mid>:participants`), the voter set
(`room:<mid>:votes`), whether the trigger marker (`room:<mid>:triggered`)
holds "1", and the absolute expiry timestamp attached to each of the
three keys (`none` when the key carries no expiry). -/
structure RedisRoom where
  participants : Finset String
  votes : Finset String
  triggered : Bool
  partExpiry : Option Nat
  votesExpiry : Option Nat
  trigExpiry : Option Nat
deriving DecidableEq

/-- redis_store.go lines 79-86 (Redis branch of `AddParticipant`): one
pipeline doing `SADD room:<mid>:participants uid` then
`EXPIRE room:<mid>:participants roomTTL`; `now` is the instant of the
call, so the key expires at `now + roomTTL`. -/
def RedisRoom.addParticipantR (r : RedisRoom) (now : Nat) (uid : String) : RedisRoom :=
  { r with participants := insert uid r.participants,
           partExpiry := some (now + roomTTL) }

/-- redis_store.go lines 98-99 (Redis branch of `RemoveParticipant`):
only `SREM room:<mid>:participants uid`; no `EXPIRE` is issued. -/
def RedisRoom.removeParticipantR (r : RedisRoom) (uid : String) : RedisRoom :=
  { r with participants := r.participants.erase uid }

/-- redis_store.go lines 118-131 (Redis branch of `Vote`): if the
trigger marker reads "1" the vote is ignored with no writes; otherwise
`SADD room:<mid>:votes uid` (counted iff newly added) followed by
`EXPIRE room:<mid>:votes roomTTL`. -/
def RedisRoom.voteR (r : RedisRoom) (now : Nat) (uid : String) : RedisRoom × Bool :=
  if r.triggered then (r, false)
  else
    ({ r with votes := insert uid r.votes,
              votesExpiry := some (now + roomTTL) },
     decide (uid ∉ r.votes))

/-- redis_store.go lines 157-185 (Redis branch of `CheckTriggerStatus`):
one transaction reading both cardinalities and the trigger marker; when
untriggered, non-empty and the threshold is met, `SET room:<mid>:triggered
"1" EX roomTTL` persists the flag before true is returned. Returns
(room, total, votes, triggered). -/
def RedisRoom.checkTriggerStatusR (r : RedisRoom) (now : Nat) : RedisRoom × Nat × Nat × Bool :=
  let total := r.participants.card
  let votes := r.votes.card
  if r.triggered then (r, total, votes, true)
  else if 0 < total ∧ ceilHalf total ≤ votes ∧ 0 < votes then
    ({ r with triggered := true, trigExpiry := some (now + roomTTL) },
     total, votes, true)
  else (r, total, votes, false)

/-- C1: the trigger evaluation is a pure function of (total, votes,
alreadyTriggered): already-triggered always yields true; an empty room
never triggers; otherwise it triggers exactly when votes > 0 and
votes >= ceil(total/2); the six concrete spec values hold; and it is the
decision both `Room.CheckTrigger` and `RedisRoom.checkTriggerStatusR`
compute. -/
theorem c1_evaluate_spec :
    (∀ t v : Nat, evaluate t v true = true) ∧
    (∀ v : Nat, evaluate 0 v false = false) ∧
    (∀ t v : Nat, evaluate t v false = true ↔ 0 < t ∧ 0 < v ∧ ceilHalf t ≤ v) ∧
    evaluate 3 0 false = false ∧ evaluate 3 1 false = false ∧
    evaluate 3 2 false = true ∧ evaluate 1 1 false = true ∧
    evaluate 0 5 false = false ∧
    (∀ r : Room, (r.CheckTrigger).2 =
      evaluate r.Participants.card r.VotedUsers.card r.IsTriggered) ∧
    (∀ (r : RedisRoom) (now : Nat), (r.checkTriggerStatusR now).2.2.2 =
      evaluate r.participants.card r.votes.card r.triggered) := by
  refine ⟨fun t v => rfl, fun v => rfl, fun t v => ?_, rfl, rfl, rfl, rfl, rfl, ?_, ?_⟩
  · simp only [evaluate, if_neg Bool.false_ne_true]
    constructor
    · intro h
      by_cases ht : t = 0
      · simp [ht] at h
      · simp [ht] at h
        exact ⟨Nat.pos_of_ne_zero ht, h.2, h.1⟩
    · rintro ⟨ht, hv, hth⟩
      simp [Nat.pos_iff_ne_zero.mp ht, hth, hv]
  · intro r
    by_cases h : r.IsTriggered
    · simp [Room.CheckTrigger, evaluate, h]
    · simp only [Bool.not_eq_true] at h
      by_cases ht : r.Participants.card = 0
      · simp [Room.CheckTrigger, evaluate, h, ht]
      · by_cases hc : ceilHalf r.Participants.card ≤ r.VotedUsers.card ∧ 0 < r.VotedUsers.card
        · simp [Room.CheckTrigger, evaluate, h, ht, hc, -Finset.card_pos]
        · simp [Room.CheckTrigger, evaluate, h, ht, hc, -Finset.card_pos]
  · intro r now
    by_cases h : r.triggered
    · simp [RedisRoom.checkTriggerStatusR, evaluate, h]
    · simp only [Bool.not_eq_true] at h
      by_cases ht : r.participants.card = 0
      · simp [RedisRoom.checkTriggerStatusR, evaluate, h, ht]
      · have ht' : 0 < r.participants.card := Nat.pos_of_ne_zero ht
        by_cases hc : ceilHalf r.participants.card ≤ r.votes.card ∧ 0 < r.votes.card
        · simp [RedisRoom.checkTriggerStatusR, evaluate, h, ht, ht', hc, -Finset.card_pos]
        · simp [RedisRoom.checkTriggerStatusR, evaluate, h, ht, ht', hc, -Finset.card_pos]

/-- One store operation of the public Room Store interface (spec section
4.2): addParticipant, removeParticipant, castVote, getCounts. -/
inductive StoreOp where
  | add (pid : String)
  | remove (pid : String)
  | vote (pid : String)
  | counts
deriving DecidableEq

/-- Effect of one operation on an in-memory room (state.go); `counts`
is the state effect of `CheckTrigger` (the read that may persist the
trigger). -/
def Room.applyOp (r : Room) : StoreOp → Room
  | .add pid => r.AddParticipant pid
  | .remove pid => r.RemoveParticipant pid
  | .vote pid => (r.Vote pid).1
  | .counts => (r.CheckTrigger).1

/-- A sequence of operations on an in-memory room. -/
def Room.applyOps (r : Room) (ops : List StoreOp) : Room :=
  ops.foldl Room.applyOp r

/-- Effect of one timestamped operation on the Redis-backed room. -/
def RedisRoom.applyOpR (r : RedisRoom) : Nat × StoreOp → RedisRoom
  | (now, .add pid) => r.addParticipantR now pid
  | (_, .remove pid) => r.removeParticipantR pid
  | (now, .vote pid) => (r.voteR now pid).1
  | (now, .counts) => (r.checkTriggerStatusR now).1

/-- A sequence of timestamped operations on the Redis-backed room. -/
def RedisRoom.applyOpsR (r : RedisRoom) (ops : List (Nat × StoreOp)) : RedisRoom :=
  ops.foldl RedisRoom.applyOpR r

lemma Room.applyOp_triggered_mono (r : Room) (op : StoreOp)
    (h : r.IsTriggered = true) : (r.applyOp op).IsTriggered = true := by
  cases op <;>
    simp [Room.applyOp, Room.AddParticipant, Room.RemoveParticipant,
      Room.Vote, Room.CheckTrigger, h]

lemma Room.applyOps_triggered_mono (ops : List StoreOp) :
    ∀ r : Room, r.IsTriggered = true → (r.applyOps ops).IsTriggered = true := by
  induction ops with
  | nil => intro r h; simpa [Room.applyOps] using h
  | cons op rest ih =>
      intro r h
      simp only [Room.applyOps, List.foldl_cons]
      exact ih _ (Room.applyOp_triggered_mono r op h)

lemma RedisRoom.applyOpR_triggered_mono (s : RedisRoom) (op : Nat × StoreOp)
    (h : s.triggered = true) : (s.applyOpR op).triggered = true := by
  obtain ⟨now, op⟩ := op
  cases op <;>
    simp [RedisRoom.applyOpR, RedisRoom.addParticipantR,
      RedisRoom.removeParticipantR, RedisRoom.voteR,
      RedisRoom.checkTriggerStatusR, h]

lemma RedisRoom.applyOpsR_triggered_mono (ops : List (Nat × StoreOp)) :
    ∀ s : RedisRoom, s.triggered = true → (s.applyOpsR ops).triggered = true := by
  induction ops with
  | nil => intro s h; simpa [RedisRoom.applyOpsR] using h
  | cons op rest ih =>
      intro s h
      simp only [RedisRoom.applyOpsR, List.foldl_cons]
      exact ih _ (RedisRoom.applyOpR_triggered_mono s op h)

/-- C2: the triggered flag is monotonic on both backends: starting from
any room whose flag is true, no sequence of addParticipant,
removeParticipant, castVote, getCounts operations ever resets it, and a
later getCounts (CheckTrigger / CheckTriggerStatusMem / CheckTriggerStatusR)
still reports triggered = true. -/
theorem c2_triggered_monotonic :
    (∀ (r : Room) (ops : List StoreOp), r.IsTriggered = true →
      (r.applyOps ops).IsTriggered = true ∧
      (r.applyOps ops).GetState.2.2 = true ∧
      ((r.applyOps ops).CheckTrigger).2 = true ∧
      ((r.applyOps ops).CheckTriggerStatusMem).2.2.2 = true) ∧
    (∀ (s : RedisRoom) (ops : List (Nat × StoreOp)) (now : Nat),
      s.triggered = true →
      (s.applyOpsR ops).triggered = true ∧
      ((s.applyOpsR ops).checkTriggerStatusR now).2.2.2 = true) := by
  constructor
  · intro r ops h
    have hm := Room.applyOps_triggered_mono ops r h
    exact ⟨hm, by simp [Room.GetState, hm], by simp [Room.CheckTrigger, hm],
      by simp [Room.CheckTriggerStatusMem, hm]⟩
  · intro s ops now h
    have hm := RedisRoom.applyOpsR_triggered_mono ops s h
    exact ⟨hm, by simp [RedisRoom.checkTriggerStatusR, hm]⟩

/-- Witness for C2: a concrete triggered room stays triggered through a
concrete operation sequence on each backend. -/
theorem c2_triggered_monotonic_witness :
    (Room.mk ∅ ∅ true).IsTriggered = true ∧
    ((Room.mk ∅ ∅ true).applyOps
      [StoreOp.add "u1", StoreOp.vote "u1", StoreOp.counts]).GetState.2.2 = true ∧
    (RedisRoom.mk ∅ ∅ true none none none).triggered = true ∧
    ((RedisRoom.mk ∅ ∅ true none none none).applyOpsR
      [(0, StoreOp.add "u1"), (5, StoreOp.vote "u1"), (7, StoreOp.counts)]).triggered = true :=
  ⟨rfl, (c2_triggered_monotonic.1 _ _ rfl).2.1, rfl,
    (c2_triggered_monotonic.2 _ _ 9 rfl).1⟩

/-- C3: castVote returns false and leaves the room state (the data
model's participant set, voter set, triggered flag) unchanged when the
room is already triggered or the participant already voted — in
particular a second vote by the same participant is never counted — and
otherwise inserts the id into the voter set and returns true; on both
backends. -/
theorem c3_vote_semantics :
    (∀ (r : Room) (pid : String),
      (r.IsTriggered = true → r.Vote pid = (r, false)) ∧
      (pid ∈ r.VotedUsers → r.Vote pid = (r, false)) ∧
      (r.IsTriggered = false → pid ∉ r.VotedUsers →
        r.Vote pid = ({ r with VotedUsers := insert pid r.VotedUsers }, true)) ∧
      ((r.Vote pid).1.Vote pid).2 = false) ∧
    (∀ (s : RedisRoom) (now now2 : Nat) (uid : String),
      (s.triggered = true → s.voteR now uid = (s, false)) ∧
      (uid ∈ s.votes →
        (s.voteR now uid).2 = false ∧
        (s.voteR now uid).1.participants = s.participants ∧
        (s.voteR now uid).1.votes = s.votes ∧
        (s.voteR now uid).1.triggered = s.triggered) ∧
      (s.triggered = false → uid ∉ s.votes →
        (s.voteR now uid).2 = true ∧
        (s.voteR now uid).1.votes = insert uid s.votes ∧
        (s.voteR now uid).1.participants = s.participants ∧
        (s.voteR now uid).1.triggered = s.triggered) ∧
      ((s.voteR now uid).1.voteR now2 uid).2 = false) := by
  constructor
  · intro r pid
    refine ⟨fun h => by simp [Room.Vote, h], fun h => ?_, fun h h2 => ?_, ?_⟩
    · by_cases ht : r.IsTriggered <;> simp [Room.Vote, ht, h]
    · simp [Room.Vote, h, h2]
    · by_cases ht : r.IsTriggered
      · simp [Room.Vote, ht]
      · by_cases hv : pid ∈ r.VotedUsers
        · simp [Room.Vote, ht, hv]
        · simp [Room.Vote, ht, hv]
  · intro s now now2 uid
    refine ⟨fun h => by simp [RedisRoom.voteR, h], fun h => ?_, fun h h2 => ?_, ?_⟩
    · by_cases ht : s.triggered
      · simp [RedisRoom.voteR, ht, h]
      · simp [RedisRoom.voteR, ht, h, Finset.insert_eq_self.mpr h]
    · simp [RedisRoom.voteR, h, h2]
    · by_cases ht : s.triggered
      · simp [RedisRoom.voteR, ht]
      · simp [RedisRoom.voteR, ht]

/-- Witness for C3: concrete rooms exercising the triggered, duplicate
and counted branches of both backends. -/
theorem c3_vote_semantics_witness :
    ((Room.mk ∅ ∅ true).IsTriggered = true ∧
      (Room.mk ∅ ∅ true).Vote "u1" = (Room.mk ∅ ∅ true, false)) ∧
    ("u1" ∈ (Room.mk ∅ {"u1"} false).VotedUsers ∧
      (Room.mk ∅ {"u1"} false).Vote "u1" = (Room.mk ∅ {"u1"} false, false)) ∧
    ((Room.mk {"u1"} ∅ false).IsTriggered = false ∧ "u1" ∉ (Room.mk {"u1"} ∅ false).VotedUsers ∧
      (Room.mk {"u1"} ∅ false).Vote "u1" = (Room.mk {"u1"} {"u1"} false, true)) ∧
    ((RedisRoom.mk ∅ ∅ true none none none).triggered = true ∧
      (RedisRoom.mk ∅ ∅ true none none none).voteR 3 "u1" =
        (RedisRoom.mk ∅ ∅ true none none none, false)) ∧
    ("u1" ∈ (RedisRoom.mk ∅ {"u1"} false none none none).votes ∧
      ((RedisRoom.mk ∅ {"u1"} false none none none).voteR 3 "u1").2 = false ∧
      ((RedisRoom.mk ∅ {"u1"} false none none none).voteR 3 "u1").1.votes = {"u1"}) ∧
    ((RedisRoom.mk {"u1"} ∅ false none none none).triggered = false ∧
      "u1" ∉ (RedisRoom.mk {"u1"} ∅ false none none none).votes ∧
      ((RedisRoom.mk {"u1"} ∅ false none none none).voteR 3 "u1").2 = true ∧
      ((RedisRoom.mk {"u1"} ∅ false none none none).voteR 3 "u1").1.votes = insert "u1" ∅) :=
  ⟨⟨rfl, (c3_vote_semantics.1 (Room.mk ∅ ∅ true) "u1").1 rfl⟩,
   ⟨by decide, (c3_vote_semantics.1 (Room.mk ∅ {"u1"} false) "u1").2.1 (by decide)⟩,
   ⟨rfl, by decide,
     (c3_vote_semantics.1 (Room.mk {"u1"} ∅ false) "u1").2.2.1 rfl (by decide)⟩,
   ⟨rfl, (c3_vote_semantics.2 (RedisRoom.mk ∅ ∅ true none none none) 3 4 "u1").1 rfl⟩,
   ⟨by decide,
     ((c3_vote_semantics.2 (RedisRoom.mk ∅ {"u1"} false none none none) 3 4 "u1").2.1 (by decide)).1,
     ((c3_vote_semantics.2 (RedisRoom.mk ∅ {"u1"} false none none none) 3 4 "u1").2.1 (by decide)).2.2.1⟩,
   ⟨rfl, by decide,
     ((c3_vote_semantics.2 (RedisRoom.mk {"u1"} ∅ false none none none) 3 4 "u1").2.2.1 rfl (by decide)).1,
     ((c3_vote_semantics.2 (RedisRoom.mk {"u1"} ∅ false none none none) 3 4 "u1").2.2.1 rfl (by decide)).2.1⟩⟩

/-- C9: addParticipant is idempotent on both backends: re-adding an id
already in the participant set leaves the room state (participant set,
voter set, triggered flag) unchanged with no error, and adding the same
id twice yields the same state as adding it once. -/
theorem c9_addParticipant_idempotent :
    (∀ (r : Room) (pid : String),
      (pid ∈ r.Participants → r.AddParticipant pid = r) ∧
      (r.AddParticipant pid).AddParticipant pid = r.AddParticipant pid) ∧
    (∀ (s : RedisRoom) (now : Nat) (uid : String),
      (uid ∈ s.participants →
        (s.addParticipantR now uid).participants = s.participants ∧
        (s.addParticipantR now uid).votes = s.votes ∧
        (s.addParticipantR now uid).triggered = s.triggered) ∧
      (s.addParticipantR now uid).addParticipantR now uid = s.addParticipantR now uid) := by
  constructor
  · intro r pid
    constructor
    · intro h
      simp [Room.AddParticipant, Finset.insert_eq_self.mpr h]
    · simp [Room.AddParticipant]
  · intro s now uid
    constructor
    · intro h
      simp [RedisRoom.addParticipantR, Finset.insert_eq_self.mpr h]
    · simp [RedisRoom.addParticipantR]

/-- Witness for C9: re-adding a present participant at a concrete room
is the identity on the room state, on both backends. -/
theorem c9_addParticipant_idempotent_witness :
    ("u1" ∈ (Room.mk {"u1"} ∅ false).Participants ∧
      (Room.mk {"u1"} ∅ false).AddParticipant "u1" = Room.mk {"u1"} ∅ false) ∧
    ("u1" ∈ (RedisRoom.mk {"u1"} ∅ false (some 9) none none).participants ∧
      ((RedisRoom.mk {"u1"} ∅ false (some 9) none none).addParticipantR 0 "u1").participants =
        ({"u1"} : Finset String)) :=
  ⟨⟨by decide, (c9_addParticipant_idempotent.1 (Room.mk {"u1"} ∅ false) "u1").1 (by decide)⟩,
   ⟨by decide,
     ((c9_addParticipant_idempotent.2 (RedisRoom.mk {"u1"} ∅ false (some 9) none none) 0 "u1").1
       (by decide)).1⟩⟩

/-- C10: castVote only ever touches the voter set: on both backends it
leaves the participant set and the triggered flag unchanged whether or
not the vote is counted (in the shared backend it also leaves the
participants-key and triggered-key expiries alone), and neither
addParticipant nor removeParticipant changes the triggered flag either,
so the false-to-true trigger transition is performed only by the
getCounts read (CheckTrigger / CheckTriggerStatus). -/
theorem c10_vote_frame :
    (∀ (r : Room) (pid : String),
      (r.Vote pid).1.Participants = r.Participants ∧
      (r.Vote pid).1.IsTriggered = r.IsTriggered ∧
      (r.AddParticipant pid).IsTriggered = r.IsTriggered ∧
      (r.RemoveParticipant pid).IsTriggered = r.IsTriggered) ∧
    (∀ (s : RedisRoom) (now : Nat) (uid : String),
      (s.voteR now uid).1.participants = s.participants ∧
      (s.voteR now uid).1.triggered = s.triggered ∧
      (s.voteR now uid).1.partExpiry = s.partExpiry ∧
      (s.voteR now uid).1.trigExpiry = s.trigExpiry ∧
      (s.addParticipantR now uid).triggered = s.triggered ∧
      (s.removeParticipantR uid).triggered = s.triggered) := by
  constructor
  · intro r pid
    by_cases ht : r.IsTriggered
    · simp [Room.Vote, Room.AddParticipant, Room.RemoveParticipant, ht]
    · by_cases hv : pid ∈ r.VotedUsers <;>
        simp [Room.Vote, Room.AddParticipant, Room.RemoveParticipant, ht, hv]
  · intro s now uid
    by_cases ht : s.triggered <;>
      simp [RedisRoom.voteR, RedisRoom.addParticipantR,
        RedisRoom.removeParticipantR, ht]

/-- C4: getCounts (CheckTriggerStatus on both backends) returns the
current participant-set size, voter-set size and the trigger decision on
those counts; when the room is not yet triggered and the trigger
condition (total > 0 and votes > 0 and votes >= ceil(total/2)) holds, it
persists the triggered flag (with a 24-hour expiry on the trigger key in
the shared backend) and returns triggered = true, and otherwise it
leaves the room untouched and returns the stored flag. -/
theorem c4_getCounts_spec :
    (∀ r : Room,
      (r.CheckTriggerStatusMem).2 =
        (r.Participants.card, r.VotedUsers.card,
          evaluate r.Participants.card r.VotedUsers.card r.IsTriggered) ∧
      (r.IsTriggered = false →
        0 < r.Participants.card ∧ 0 < r.VotedUsers.card ∧
          ceilHalf r.Participants.card ≤ r.VotedUsers.card →
        (r.CheckTriggerStatusMem).1.IsTriggered = true ∧
        (r.CheckTriggerStatusMem).2.2.2 = true) ∧
      (r.IsTriggered = false →
        ¬(0 < r.Participants.card ∧ 0 < r.VotedUsers.card ∧
          ceilHalf r.Participants.card ≤ r.VotedUsers.card) →
        (r.CheckTriggerStatusMem).1 = r ∧
        (r.CheckTriggerStatusMem).2.2.2 = false)) ∧
    (∀ (s : RedisRoom) (now : Nat),
      (s.checkTriggerStatusR now).2 =
        (s.participants.card, s.votes.card,
          evaluate s.participants.card s.votes.card s.triggered) ∧
      (s.triggered = false →
        0 < s.participants.card ∧ 0 < s.votes.card ∧
          ceilHalf s.participants.card ≤ s.votes.card →
        (s.checkTriggerStatusR now).1.triggered = true ∧
        (s.checkTriggerStatusR now).1.trigExpiry = some (now + roomTTL) ∧
        (s.checkTriggerStatusR now).2.2.2 = true) ∧
      (s.triggered = false →
        ¬(0 < s.participants.card ∧ 0 < s.votes.card ∧
          ceilHalf s.participants.card ≤ s.votes.card) →
        (s.checkTriggerStatusR now).1 = s ∧
        (s.checkTriggerStatusR now).2.2.2 = false)) := by
  constructor
  · intro r
    by_cases ht : r.IsTriggered
    · exact ⟨by simp [Room.CheckTriggerStatusMem, evaluate, ht],
        fun h => by simp [ht] at h, fun h => by simp [ht] at h⟩
    · have ht' : r.IsTriggered = false := by simpa using ht
      by_cases hc : 0 < r.Participants.card ∧
          ceilHalf r.Participants.card ≤ r.VotedUsers.card ∧ 0 < r.VotedUsers.card
      · have hne : ¬r.Participants.card = 0 := Nat.pos_iff_ne_zero.mp hc.1
        refine ⟨?_, fun _ _ => ?_, fun _ hn => absurd ⟨hc.1, hc.2.2, hc.2.1⟩ hn⟩
        · simp [Room.CheckTriggerStatusMem, evaluate, ht', hc, hne, hc.2.1, hc.2.2,
            -Finset.card_pos]
        · simp [Room.CheckTriggerStatusMem, ht', hc, -Finset.card_pos]
      · have hc' : ¬(0 < r.Participants.card ∧ 0 < r.VotedUsers.card ∧
            ceilHalf r.Participants.card ≤ r.VotedUsers.card) := by tauto
        refine ⟨?_, fun _ h => absurd (by tauto) hc, fun _ _ => ?_⟩
        · by_cases hne : r.Participants.card = 0
          · simp [Room.CheckTriggerStatusMem, evaluate, ht', hc, hne, -Finset.card_pos]
          · have : ¬(ceilHalf r.Participants.card ≤ r.VotedUsers.card ∧
                0 < r.VotedUsers.card) := by
              intro h; exact hc ⟨Nat.pos_of_ne_zero hne, h⟩
            simp [Room.CheckTriggerStatusMem, evaluate, ht', hc, hne, this,
              -Finset.card_pos]
        · simp [Room.CheckTriggerStatusMem, ht', hc, -Finset.card_pos]
  · intro s now
    by_cases ht : s.triggered
    · exact ⟨by simp [RedisRoom.checkTriggerStatusR, evaluate, ht],
        fun h => by simp [ht] at h, fun h => by simp [ht] at h⟩
    · have ht' : s.triggered = false := by simpa using ht
      by_cases hc : 0 < s.participants.card ∧
          ceilHalf s.participants.card ≤ s.votes.card ∧ 0 < s.votes.card
      · have hne : ¬s.participants.card = 0 := Nat.pos_iff_ne_zero.mp hc.1
        refine ⟨?_, fun _ _ => ?_, fun _ hn => absurd ⟨hc.1, hc.2.2, hc.2.1⟩ hn⟩
        · simp [RedisRoom.checkTriggerStatusR, evaluate, ht', hc, hne, hc.2.1, hc.2.2,
            -Finset.card_pos]
        · simp [RedisRoom.checkTriggerStatusR, ht', hc, -Finset.card_pos]
      · have hc' : ¬(0 < s.participants.card ∧ 0 < s.votes.card ∧
            ceilHalf s.participants.card ≤ s.votes.card) := by tauto
        refine ⟨?_, fun _ h => absurd (by tauto) hc, fun _ _ => ?_⟩
        · by_cases hne : s.participants.card = 0
          · simp [RedisRoom.checkTriggerStatusR, evaluate, ht', hc, hne, -Finset.card_pos]
          · have : ¬(ceilHalf s.participants.card ≤ s.votes.card ∧
                0 < s.votes.card) := by
              intro h; exact hc ⟨Nat.pos_of_ne_zero hne, h⟩
            simp [RedisRoom.checkTriggerStatusR, evaluate, ht', hc, hne, this,
              -Finset.card_pos]
        · simp [RedisRoom.checkTriggerStatusR, ht', hc, -Finset.card_pos]

/-- Witness for C4: a 3-participant, 2-vote untriggered room meets the
condition and getCounts persists the flag on both backends. -/
theorem c4_getCounts_spec_witness :
    ((Room.mk {"u1", "u2", "u3"} {"u1", "u2"} false).IsTriggered = false ∧
      (0 < (Room.mk {"u1", "u2", "u3"} {"u1", "u2"} false).Participants.card ∧
        0 < (Room.mk {"u1", "u2", "u3"} {"u1", "u2"} false).VotedUsers.card ∧
        ceilHalf (Room.mk {"u1", "u2", "u3"} {"u1", "u2"} false).Participants.card ≤
          (Room.mk {"u1", "u2", "u3"} {"u1", "u2"} false).VotedUsers.card) ∧
      ((Room.mk {"u1", "u2", "u3"} {"u1", "u2"} false).CheckTriggerStatusMem).1.IsTriggered = true) ∧
    ((RedisRoom.mk {"u1", "u2", "u3"} {"u1", "u2"} false none none none).triggered = false ∧
      ((RedisRoom.mk {"u1", "u2", "u3"} {"u1", "u2"} false none none none).checkTriggerStatusR 10).1.trigExpiry =
        some (10 + roomTTL)) :=
  ⟨⟨rfl, by decide,
    ((c4_getCounts_spec.1 (Room.mk {"u1", "u2", "u3"} {"u1", "u2"} false)).2.1 rfl (by decide)).1⟩,
   ⟨rfl,
    ((c4_getCounts_spec.2 (RedisRoom.mk {"u1", "u2", "u3"} {"u1", "u2"} false none none none) 10).2.1
      rfl (by decide)).2.1⟩⟩

/-- C5: end-to-end scenario on the in-memory backend: from an empty room,
adding u1, u2, u3 gives total 3; u1's vote is counted and getCounts then
reports (3, 1, false); u2's vote is counted and getCounts then reports
(3, 2, true) (threshold ceil(3/2) = 2 reached); u3's subsequent vote is
not counted — and the same sequence on the shared Redis backend. -/
theorem c5_end_to_end_scenario :
    (let r3 := ((NewRoom.AddParticipant "u1").AddParticipant "u2").AddParticipant "u3"
     let r4 := (r3.Vote "u1").1
     let r5 := (r4.CheckTriggerStatusMem).1
     let r6 := (r5.Vote "u2").1
     let r7 := (r6.CheckTriggerStatusMem).1
     r3.GetState = (3, 0, false) ∧
     (r3.Vote "u1").2 = true ∧
     (r4.CheckTriggerStatusMem).2 = (3, 1, false) ∧
     (r4.CheckTrigger).2 = false ∧
     (r5.Vote "u2").2 = true ∧
     (r6.CheckTriggerStatusMem).2 = (3, 2, true) ∧
     (r6.CheckTrigger).2 = true ∧
     (r7.Vote "u3").2 = false) ∧
    (let s0 : RedisRoom := RedisRoom.mk ∅ ∅ false none none none
     let s3 := ((s0.addParticipantR 0 "u1").addParticipantR 1 "u2").addParticipantR 2 "u3"
     let s4 := (s3.voteR 3 "u1").1
     let s5 := (s4.checkTriggerStatusR 4).1
     let s6 := (s5.voteR 5 "u2").1
     let s7 := (s6.checkTriggerStatusR 6).1
     s3.participants.card = 3 ∧ s3.votes.card = 0 ∧ s3.triggered = false ∧
     (s3.voteR 3 "u1").2 = true ∧
     (s4.checkTriggerStatusR 4).2 = (3, 1, false) ∧
     (s5.voteR 5 "u2").2 = true ∧
     (s6.checkTriggerStatusR 6).2 = (3, 2, true) ∧
     s7.triggered = true ∧
     (s7.voteR 7 "u3").2 = false) := by
  constructor <;> decide

/-- Counterexample for C6: removeParticipant (redis_store.go lines 89-100)
issues only SREM and no EXPIRE, so after removing u1 from a room whose
participants key had 100 seconds left to live, the key still expires at
the old instant 100, not a full 24 hours (roomTTL) from the call at
time 0. -/
theorem c6_counterexample :
    ((RedisRoom.mk {"u1", "u2"} ∅ false (some 100) none none).removeParticipantR "u1").participants =
      ({"u2"} : Finset String) ∧
    ((RedisRoom.mk {"u1", "u2"} ∅ false (some 100) none none).removeParticipantR "u1").partExpiry =
      some 100 ∧
    some 100 ≠ some (0 + roomTTL) := by decide

/-- C6 (amended): in the shared backend, addParticipant resets the
24-hour expiry on the participants key only, a castVote in a
not-yet-triggered room resets the 24-hour expiry on the votes key only
(whether or not the vote is counted), a castVote in a triggered room
writes nothing, and removeParticipant resets no expiry at all. -/
theorem c6_expiry_refresh :
    ∀ (s : RedisRoom) (now : Nat) (uid : String),
      ((s.addParticipantR now uid).partExpiry = some (now + roomTTL) ∧
        (s.addParticipantR now uid).votesExpiry = s.votesExpiry ∧
        (s.addParticipantR now uid).trigExpiry = s.trigExpiry) ∧
      ((s.removeParticipantR uid).partExpiry = s.partExpiry ∧
        (s.removeParticipantR uid).votesExpiry = s.votesExpiry ∧
        (s.removeParticipantR uid).trigExpiry = s.trigExpiry) ∧
      (s.triggered = false →
        (s.voteR now uid).1.votesExpiry = some (now + roomTTL) ∧
        (s.voteR now uid).1.partExpiry = s.partExpiry ∧
        (s.voteR now uid).1.trigExpiry = s.trigExpiry) ∧
      (s.triggered = true → s.voteR now uid = (s, false)) := by
  intro s now uid
  refine ⟨⟨rfl, rfl, rfl⟩, ⟨rfl, rfl, rfl⟩, fun h => ?_, fun h => ?_⟩
  · simp [RedisRoom.voteR, h]
  · simp [RedisRoom.voteR, h]

/-- Witness for C6 (amended): concrete rooms exercising the vote-refresh
branch and the triggered no-write branch. -/
theorem c6_expiry_refresh_witness :
    ((RedisRoom.mk ∅ ∅ false none (some 7) none).triggered = false ∧
      ((RedisRoom.mk ∅ ∅ false none (some 7) none).voteR 3 "u1").1.votesExpiry =
        some (3 + roomTTL)) ∧
    ((RedisRoom.mk ∅ ∅ true none (some 7) none).triggered = true ∧
      (RedisRoom.mk ∅ ∅ true none (some 7) none).voteR 3 "u1" =
        (RedisRoom.mk ∅ ∅ true none (some 7) none, false)) :=
  ⟨⟨rfl, ((c6_expiry_refresh (RedisRoom.mk ∅ ∅ false none (some 7) none) 3 "u1").2.2.1 rfl).1⟩,
   ⟨rfl, (c6_expiry_refresh (RedisRoom.mk ∅ ∅ true none (some 7) none) 3 "u1").2.2.2 rfl⟩⟩

/-- The framed fields extracted by VerifyZoomContext (auth.go lines
60-95): IV, AAD, ciphertext and trailing authentication tag, as byte
lists. -/
structure ZoomFrame where
  iv : List Nat
  aad : List Nat
  cipherText : List Nat
  authTag : List Nat
deriving DecidableEq

/-- `ivLength := int(b[0])`, auth.go line 61 (0 when out of range; the
parser only uses it after checking `len(b) >= 1`). -/
def ivLenOf (b : List Nat) : Nat := b.getD 0 0

/-- `binary.LittleEndian.Uint16` of the two bytes following the IV,
auth.go line 73. -/
def aadLenOf (b : List Nat) : Nat :=
  b.getD (1 + ivLenOf b) 0 + 256 * b.getD (1 + ivLenOf b + 1) 0

/-- `binary.LittleEndian.Uint32` of the four bytes following the AAD,
auth.go line 85. -/
def ctLenOf (b : List Nat) : Nat :=
  b.getD (1 + ivLenOf b + 2 + aadLenOf b) 0 +
    256 * b.getD (1 + ivLenOf b + 2 + aadLenOf b + 1) 0 +
    65536 * b.getD (1 + ivLenOf b + 2 + aadLenOf b + 2) 0 +
    16777216 * b.getD (1 + ivLenOf b + 2 + aadLenOf b + 3) 0

/-- The framing phase of VerifyZoomContext, auth.go lines 56-95: walk
the decoded bytes, checking the remaining length at every offset before
slicing — ivLength byte, iv, 2-byte aadLength, aad, 4-byte
cipherTextLength, cipherText — each failure with its own error message
(matching the Go `fmt.Errorf` strings); whatever remains is the auth
tag. The running `offset` of the Go code is expanded into explicit sums. -/
def parseZoomFrame (b : List Nat) : Except String ZoomFrame :=
  if b.length < 1 then .error "context payload too short (no ivLength)"
  else if b.length < 1 + ivLenOf b then .error "context payload too short (iv)"
  else if b.length < 1 + ivLenOf b + 2 then .error "context payload too short (aadLength)"
  else if b.length < 1 + ivLenOf b + 2 + aadLenOf b then .error "context payload too short (aad)"
  else if b.length < 1 + ivLenOf b + 2 + aadLenOf b + 4 then
    .error "context payload too short (cipherTextLength)"
  else if b.length < 1 + ivLenOf b + 2 + aadLenOf b + 4 + ctLenOf b then
    .error "context payload too short (cipherText)"
  else
    .ok { iv := (b.drop 1).take (ivLenOf b),
          aad := (b.drop (1 + ivLenOf b + 2)).take (aadLenOf b),
          cipherText := (b.drop (1 + ivLenOf b + 2 + aadLenOf b + 4)).take (ctLenOf b),
          authTag := b.drop (1 + ivLenOf b + 2 + aadLenOf b + 4 + ctLenOf b) }

/-- The single length condition under which every framing check of
parseZoomFrame passes (each earlier offset check is implied by the final
one since all lengths are non-negative). -/
def wellFramed (b : List Nat) : Prop :=
  1 + ivLenOf b + 2 + aadLenOf b + 4 + ctLenOf b ≤ b.length

instance (b : List Nat) : Decidable (wellFramed b) := by
  unfold wellFramed; infer_instance

/-- A decoded uid/mid identity (auth.go lines 18-22, struct
ZoomAuthContext). -/
structure ZoomAuthCtx where
  UID : String
  Mid : String
deriving DecidableEq

/-- A value of the decrypted JSON object: a string, or anything else
(numbers, objects, null...), which the Go type assertion
`payload["uid"].(string)` rejects. -/
inductive JsonVal where
  | str (s : String)
  | nonString
deriving DecidableEq

/-- auth.go lines 124-131: the value a field contributes to the context —
the string itself when present as a string, the zero value "" otherwise
(missing field or failed type assertion). -/
def fieldStr (payload : List (String × JsonVal)) (key : String) : String :=
  match payload.lookup key with
  | some (.str s) => s
  | _ => ""

/-- auth.go lines 124-136: build the context from the "uid" and "mid"
fields of the decrypted JSON object and reject if either came out
empty. -/
def extractZoomCtx (payload : List (String × JsonVal)) : Except String ZoomAuthCtx :=
  if fieldStr payload "mid" = "" ∨ fieldStr payload "uid" = "" then
    .error "missing mid or uid in context payload"
  else .ok { UID := fieldStr payload "uid", Mid := fieldStr payload "mid" }

/-- The full VerifyZoomContext pipeline on already-base64url-decoded
bytes (auth.go lines 56-136), parametrized by the AES-256-GCM open
operation `decrypt` (auth.go lines 97-116) and the JSON parse `jparse`
(auth.go lines 118-122), both of which live outside the embedded core:
frame → decrypt → parse JSON → extract and validate uid/mid. -/
def verifyZoomBytes (decrypt : ZoomFrame → Except String (List Nat))
    (jparse : List Nat → Except String (List (String × JsonVal)))
    (b : List Nat) : Except String ZoomAuthCtx :=
  match parseZoomFrame b with
  | .error e => .error e
  | .ok f =>
    match decrypt f with
    | .error e => .error ("decrypt failed: " ++ e)
    | .ok plainText =>
      match jparse plainText with
      | .error e => .error ("json parse failed: " ++ e)
      | .ok payload => extractZoomCtx payload

/-- C7: the framing phase validates the remaining length at every offset
— ivLength byte, iv, aadLength, aad, cipherTextLength, cipherText — and
any decoded byte sequence too short at any of these offsets is rejected
with that offset's error; a framing rejection propagates through the
whole pipeline unchanged for every possible decryption and JSON-parse
function, so no decryption is ever attempted on it; and the framing
succeeds exactly on well-framed inputs. -/
theorem c7_framing_validation :
    ∀ b : List Nat,
      (b.length < 1 →
        parseZoomFrame b = .error "context payload too short (no ivLength)") ∧
      (1 ≤ b.length → b.length < 1 + ivLenOf b →
        parseZoomFrame b = .error "context payload too short (iv)") ∧
      (1 + ivLenOf b ≤ b.length → b.length < 1 + ivLenOf b + 2 →
        parseZoomFrame b = .error "context payload too short (aadLength)") ∧
      (1 + ivLenOf b + 2 ≤ b.length → b.length < 1 + ivLenOf b + 2 + aadLenOf b →
        parseZoomFrame b = .error "context payload too short (aad)") ∧
      (1 + ivLenOf b + 2 + aadLenOf b ≤ b.length →
        b.length < 1 + ivLenOf b + 2 + aadLenOf b + 4 →
        parseZoomFrame b = .error "context payload too short (cipherTextLength)") ∧
      (1 + ivLenOf b + 2 + aadLenOf b + 4 ≤ b.length →
        b.length < 1 + ivLenOf b + 2 + aadLenOf b + 4 + ctLenOf b →
        parseZoomFrame b = .error "context payload too short (cipherText)") ∧
      (¬wellFramed b → ∃ e, parseZoomFrame b = .error e) ∧
      (wellFramed b → (parseZoomFrame b).isOk = true) ∧
      (∀ e, parseZoomFrame b = .error e →
        ∀ decrypt jparse, verifyZoomBytes decrypt jparse b = .error e) := by
  intro b
  refine ⟨?_, ?_, ?_, ?_, ?_, ?_, ?_, ?_, ?_⟩
  · intro h1
    unfold parseZoomFrame
    rw [if_pos h1]
  · intro h1 h2
    unfold parseZoomFrame
    split_ifs <;> first | rfl | omega
  · intro h1 h2
    unfold parseZoomFrame
    split_ifs <;> first | rfl | omega
  · intro h1 h2
    unfold parseZoomFrame
    split_ifs <;> first | rfl | omega
  · intro h1 h2
    unfold parseZoomFrame
    split_ifs <;> first | rfl | omega
  · intro h1 h2
    unfold parseZoomFrame
    split_ifs <;> first | rfl | omega
  · intro h1
    unfold wellFramed at h1
    unfold parseZoomFrame
    split_ifs <;> first | exact ⟨_, rfl⟩ | omega
  · intro h1
    unfold wellFramed at h1
    unfold parseZoomFrame
    split_ifs <;> first | rfl | omega
  · intro e he decrypt jparse
    simp [verifyZoomBytes, he]

/-- Witness for C7: concrete byte lists failing at each framing offset
(and one well-framed list), with the rejection independent of the
decryption function. -/
theorem c7_framing_validation_witness :
    (([] : List Nat).length < 1 ∧
      parseZoomFrame [] = .error "context payload too short (no ivLength)") ∧
    (1 ≤ ([5] : List Nat).length ∧ ([5] : List Nat).length < 1 + ivLenOf [5] ∧
      parseZoomFrame [5] = .error "context payload too short (iv)") ∧
    (1 + ivLenOf [0] ≤ ([0] : List Nat).length ∧
      ([0] : List Nat).length < 1 + ivLenOf [0] + 2 ∧
      parseZoomFrame [0] = .error "context payload too short (aadLength)") ∧
    (1 + ivLenOf [0, 2, 0] + 2 ≤ ([0, 2, 0] : List Nat).length ∧
      ([0, 2, 0] : List Nat).length < 1 + ivLenOf [0, 2, 0] + 2 + aadLenOf [0, 2, 0] ∧
      parseZoomFrame [0, 2, 0] = .error "context payload too short (aad)") ∧
    (1 + ivLenOf [0, 0, 0] + 2 + aadLenOf [0, 0, 0] ≤ ([0, 0, 0] : List Nat).length ∧
      ([0, 0, 0] : List Nat).length < 1 + ivLenOf [0, 0, 0] + 2 + aadLenOf [0, 0, 0] + 4 ∧
      parseZoomFrame [0, 0, 0] = .error "context payload too short (cipherTextLength)") ∧
    (1 + ivLenOf [0, 0, 0, 9, 0, 0, 0] + 2 + aadLenOf [0, 0, 0, 9, 0, 0, 0] + 4 ≤
        ([0, 0, 0, 9, 0, 0, 0] : List Nat).length ∧
      ([0, 0, 0, 9, 0, 0, 0] : List Nat).length <
        1 + ivLenOf [0, 0, 0, 9, 0, 0, 0] + 2 + aadLenOf [0, 0, 0, 9, 0, 0, 0] + 4 +
          ctLenOf [0, 0, 0, 9, 0, 0, 0] ∧
      parseZoomFrame [0, 0, 0, 9, 0, 0, 0] = .error "context payload too short (cipherText)") ∧
    (wellFramed [1, 7, 0, 0, 0, 0, 0, 0] ∧
      (parseZoomFrame [1, 7, 0, 0, 0, 0, 0, 0]).isOk = true) ∧
    (parseZoomFrame [] = .error "context payload too short (no ivLength)" ∧
      verifyZoomBytes (fun _ => .ok []) (fun _ => .ok []) [] =
        .error "context payload too short (no ivLength)") :=
  ⟨⟨by decide, (c7_framing_validation []).1 (by decide)⟩,
   ⟨by decide, by decide, (c7_framing_validation [5]).2.1 (by decide) (by decide)⟩,
   ⟨by decide, by decide, (c7_framing_validation [0]).2.2.1 (by decide) (by decide)⟩,
   ⟨by decide, by decide,
     (c7_framing_validation [0, 2, 0]).2.2.2.1 (by decide) (by decide)⟩,
   ⟨by decide, by decide,
     (c7_framing_validation [0, 0, 0]).2.2.2.2.1 (by decide) (by decide)⟩,
   ⟨by decide, by decide,
     (c7_framing_validation [0, 0, 0, 9, 0, 0, 0]).2.2.2.2.2.1 (by decide) (by decide)⟩,
   ⟨by decide, (c7_framing_validation [1, 7, 0, 0, 0, 0, 0, 0]).2.2.2.2.2.2.2.1 (by decide)⟩,
   ⟨rfl,
     (c7_framing_validation []).2.2.2.2.2.2.2.2 _ rfl (fun _ => .ok []) (fun _ => .ok [])⟩⟩

lemma extractZoomCtx_ok_nonempty (payload : List (String × JsonVal)) (c : ZoomAuthCtx)
    (h : extractZoomCtx payload = .ok c) : c.UID ≠ "" ∧ c.Mid ≠ "" := by
  unfold extractZoomCtx at h
  split at h
  · cases h
  · next hcond =>
      push_neg at hcond
      cases h
      exact ⟨hcond.2, hcond.1⟩

/-- C8: the credential decoder never yields a partially-resolved
identity: a decrypted payload whose uid or mid field is missing, not a
string, or the empty string is rejected with an error, and whenever the
full pipeline (for any decryption and JSON-parse behavior) returns an
identity, both its fields are non-empty. -/
theorem c8_no_partial_identity :
    (∀ payload : List (String × JsonVal),
      (payload.lookup "uid" = none ∨ payload.lookup "uid" = some JsonVal.nonString ∨
        payload.lookup "uid" = some (JsonVal.str "") ∨
        payload.lookup "mid" = none ∨ payload.lookup "mid" = some JsonVal.nonString ∨
        payload.lookup "mid" = some (JsonVal.str "")) →
      extractZoomCtx payload = .error "missing mid or uid in context payload") ∧
    (∀ (payload : List (String × JsonVal)) (c : ZoomAuthCtx),
      extractZoomCtx payload = .ok c → c.UID ≠ "" ∧ c.Mid ≠ "") ∧
    (∀ (decrypt : ZoomFrame → Except String (List Nat))
       (jparse : List Nat → Except String (List (String × JsonVal)))
       (b : List Nat) (c : ZoomAuthCtx),
      verifyZoomBytes decrypt jparse b = .ok c → c.UID ≠ "" ∧ c.Mid ≠ "") := by
  refine ⟨?_, extractZoomCtx_ok_nonempty, ?_⟩
  · intro payload h
    rcases h with h | h | h | h | h | h <;> simp [extractZoomCtx, fieldStr, h]
  · intro decrypt jparse b c h
    unfold verifyZoomBytes at h
    cases hp : parseZoomFrame b with
    | error e => simp [hp] at h
    | ok f =>
        simp only [hp] at h
        cases hd : decrypt f with
        | error e => simp [hd] at h
        | ok pt =>
            simp only [hd] at h
            cases hj : jparse pt with
            | error e => simp [hj] at h
            | ok payload =>
                simp only [hj] at h
                exact extractZoomCtx_ok_nonempty payload c h

/-- Witness for C8: a payload missing its mid field is rejected; a
concrete run of the full pipeline that succeeds returns non-empty
fields. -/
theorem c8_no_partial_identity_witness :
    ([("uid", JsonVal.str "alice")].lookup "mid" = none ∧
      extractZoomCtx [("uid", JsonVal.str "alice")] =
        .error "missing mid or uid in context payload") ∧
    (verifyZoomBytes (fun _ => .ok [])
        (fun _ => .ok [("uid", JsonVal.str "alice"), ("mid", JsonVal.str "m1")])
        [1, 7, 0, 0, 0, 0, 0, 0] = .ok (ZoomAuthCtx.mk "alice" "m1") ∧
      (ZoomAuthCtx.mk "alice" "m1").UID ≠ "" ∧ (ZoomAuthCtx.mk "alice" "m1").Mid ≠ "") :=
  ⟨⟨rfl, c8_no_partial_identity.1 [("uid", JsonVal.str "alice")]
      (Or.inr (Or.inr (Or.inr (Or.inl rfl))))⟩,
   ⟨rfl, c8_no_partial_identity.2.2 (fun _ => .ok [])
      (fun _ => .ok [("uid", JsonVal.str "alice"), ("mid", JsonVal.str "m1")])
      [1, 7, 0, 0, 0, 0, 0, 0] (ZoomAuthCtx.mk "alice" "m1") rfl⟩⟩
